import Mathlib

/-!
Verification of the condition-polling utility layer of the SauceDemo UI test
suite (`src/selenium_tests/functions.py`), against its natural-language
specification.  Driver effects (element lookup, clicking, waiting, the
filesystem) are modelled by explicit environments describing what each
underlying call does; exceptions are modelled with `Except`.
-/

namespace SauceDemo

/-- Value of `CONFIG["timeouts"]["explicit_wait_short"]` from `data.py`
(seconds). -/
def explicit_wait_short : Nat := 5

/-- Value of `CONFIG["timeouts"]["explicit_wait_long"]` from `data.py`
(seconds). -/
def explicit_wait_long : Nat := 10

/-- Value of `CONFIG["timeouts"]["short_sleep"]` from `data.py`, in
milliseconds (the Python value is `0.5` seconds). -/
def short_sleep_ms : Nat := 500

/-- Value of `CONFIG["timeouts"]["medium_sleep"]` from `data.py`, in
milliseconds (the Python value is `1` second). -/
def medium_sleep_ms : Nat := 1000

/-- Value of `CONFIG["screenshot_dir"]` from `data.py`. -/
def screenshot_dir : String := "screenshots"

/-- Value of `PAGE_PATTERNS["inventory_page"]` from `data.py`. -/
def inventory_page_pattern : String := "/inventory.html"

/-- Exception classes the underlying selenium driver can raise, as they
are distinguished by the `except` clauses of `functions.py`. -/
inductive DriverExc where
  | timeout            -- selenium TimeoutException
  | noSuchElement      -- selenium NoSuchElementException
  | staleElement       -- selenium StaleElementReferenceException
  | clickIntercepted   -- selenium ElementClickInterceptedException
  | webDriverError     -- any other selenium WebDriverException
deriving Repr, DecidableEq

/-!
Model of `get_error_message` (functions.py lines 48-69).

The body performs a `WebDriverWait(...).until(visibility_of_element_located)`
(which returns an element, raises `TimeoutException`, or lets any other
driver exception through), then reads `error_element.text` (which may raise,
e.g. on a stale element) and strips it.  Only `TimeoutException` is caught.
-/

/-- Behaviour of the driver during one `get_error_message` call: the outcome
of the wait-for-visibility, and, when an element is found, the outcome of
reading its text. -/
structure GetErrorEnv where
  waitResult : Except DriverExc Unit    -- the until(...) call
  textResult : Except DriverExc String  -- reading error_element.text

/-- Model of `get_error_message`: returns the stripped error text when the
wait finds the element and the text read succeeds; `TimeoutException` is
caught and converted to `none`; any other driver exception propagates
(`Except.error`). -/
def get_error_message (env : GetErrorEnv) : Except DriverExc (Option String) :=
  let body : Except DriverExc (Option String) :=
    match env.waitResult with
    | .error e => .error e
    | .ok _ =>
      match env.textResult with
      | .error e => .error e
      | .ok t => .ok (some t.trim)
  match body with
  | .error .timeout => .ok none
  | r => r

/-!
Model of `close_error_message` (functions.py lines 72-94).

The body does `driver.find_element(...).click()` then sleeps and returns
`True`; only `NoSuchElementException` is caught (returning `False`).
-/

/-- Behaviour of the driver during one `close_error_message` call. -/
structure CloseErrorEnv where
  findResult : Except DriverExc Unit   -- find_element on the close button
  clickResult : Except DriverExc Unit  -- the click on the found button

/-- Model of `close_error_message`: `True` when find + click succeed; a
`NoSuchElementException` is caught and converted to `False`; any other
driver exception propagates (`Except.error`). -/
def close_error_message (env : CloseErrorEnv) : Except DriverExc Bool :=
  let body : Except DriverExc Bool :=
    match env.findResult with
    | .error e => .error e
    | .ok _ =>
      match env.clickResult with
      | .error e => .error e
      | .ok _ => .ok true
  match body with
  | .error .noSuchElement => .ok false
  | r => r

/-!
Model of `is_logged_in` (functions.py lines 97-122).

Waits (with the caller-supplied timeout, defaulting to
`explicit_wait_long`) for the URL to contain the inventory-page pattern;
`TimeoutException` is converted to `False`.
-/

/-- Outcome of the `WebDriverWait(driver, t).until(url_contains(pattern))`
call: the predicate became true within `t` seconds, it never did (selenium
raises `TimeoutException`), or evaluating it raised another driver
exception (e.g. the session is closed). -/
inductive UrlWaitOutcome where
  | satisfied
  | timedOut
  | raised (e : DriverExc)
deriving Repr, DecidableEq

/-- Effective timeout used by `is_logged_in`: the explicit argument, or
`CONFIG["timeouts"]["explicit_wait_long"]` when `None` is passed. -/
def effectiveTimeout (timeout : Option Nat) : Nat :=
  timeout.getD explicit_wait_long

/-- Model of `is_logged_in`: `wait t` describes what the URL-contains wait
with timeout `t` does.  Success maps to `True`, `TimeoutException` is caught
and mapped to `False`, any other driver exception propagates. -/
def is_logged_in (wait : Nat → UrlWaitOutcome) (timeout : Option Nat) :
    Except DriverExc Bool :=
  match wait (effectiveTimeout timeout) with
  | .satisfied => .ok true
  | .timedOut => .ok false
  | .raised e => .error e

/-!
Model of `get_all_products` (functions.py lines 125-181).

Waits for the product items, re-queries them with `find_elements`, then
builds one record per item via `enumerate(items, 1)`; the inner
`try/except Exception` skips items whose sub-element lookups raise, the
outer `try/except Exception` turns any other failure into the empty list.
-/

/-- Driver-independent data of one parsed product record: the values of
the `name`, `price`, `image`, `add_button` and `name_link` entries of the
dictionary built per item (elements are opaque handles, modelled as `Nat`). -/
structure ProductData where
  name : String
  price : String
  image : Nat
  add_button : Nat
  name_link : Nat
deriving Repr, DecidableEq

/-- Product record returned by `get_all_products`: the parsed data plus
the `index` entry set from `enumerate(items, 1)`. -/
structure Product where
  data : ProductData
  index : Nat
deriving Repr, DecidableEq

/-- One raw `inventory_item` container as the driver presents it: the
combined outcome of the five sub-element lookups and text reads that build
its record (any of them raising makes the whole item unparseable). -/
structure RawItem where
  parse : Except DriverExc ProductData

/-- Behaviour of the driver during one `get_all_products` call: the
wait-for-presence plus `find_elements` either yield a list of raw item
containers or raise. -/
structure ProductsEnv where
  items : Except DriverExc (List RawItem)

/-- Test for a parseable raw item. -/
def parseOk (it : RawItem) : Bool :=
  match it.parse with
  | .ok _ => true
  | .error _ => false

/-- Model of the `for index, item in enumerate(items, 1)` loop: parseable
items are appended with their 1-based enumeration index, unparseable ones
are skipped (the index still advances, as `enumerate` counts every item). -/
def parseItems : List RawItem → Nat → List Product
  | [], _ => []
  | it :: rest, idx =>
    match it.parse with
    | .ok d => ⟨d, idx⟩ :: parseItems rest (idx + 1)
    | .error _ => parseItems rest (idx + 1)

/-- Model of `get_all_products`: never raises; returns `[]` when the wait or
the `find_elements` fails, else the parsed records. -/
def get_all_products (env : ProductsEnv) : List Product :=
  match env.items with
  | .error _ => []
  | .ok items => parseItems items 1

/-!
Model of `click_product_by_name` (functions.py lines 208-255).

For each attempt in `range(1, retry_count + 1)`: call `get_all_products`;
for each product whose name matches, try the direct `name_link` click
(returning `True` after a `medium_sleep` on success), on exception try the
JavaScript click (again returning `True` after a `medium_sleep` on
success), on a second exception fall through to the next matching product
or attempt.  After the loop, return `False`.  The run is instrumented with
a trace of observable driver actions, so claims about attempt and strategy
counts can be stated.
-/

/-- A product as `click_product_by_name` sees it: its displayed name plus
how its `name_link` element reacts to the two click strategies (`false`
models the call raising an exception). -/
structure ProdElem where
  name : String
  clickOk : Bool     -- the direct click on name_link succeeds
  jsClickOk : Bool   -- the JavaScript click via execute_script succeeds
deriving Repr, DecidableEq

/-- Observable actions of one `click_product_by_name` run. -/
inductive ClickEv where
  | locate                                -- one get_all_products call
  | direct (name : String) (ok : Bool)    -- a direct name_link click
  | js (name : String) (ok : Bool)        -- a JavaScript click
  | sleep (ms : Nat)                      -- a time.sleep
deriving Repr, DecidableEq

/-- Model of the inner `for product in products` loop of one attempt: the
first matching product whose direct or JavaScript click succeeds wins; a
matching product failing both clicks is passed over and the loop
continues. -/
def clickAttempt (pname : String) : List ProdElem → Bool × List ClickEv
  | [] => (false, [])
  | p :: rest =>
    if p.name = pname then
      if p.clickOk then
        (true, [.direct p.name true, .sleep medium_sleep_ms])
      else if p.jsClickOk then
        (true, [.direct p.name false, .js p.name true, .sleep medium_sleep_ms])
      else
        let r := clickAttempt pname rest
        (r.1, .direct p.name false :: .js p.name false :: r.2)
    else
      clickAttempt pname rest

/-- Model of the outer `for attempt in range(1, retry_count + 1)` loop,
starting at attempt index `k` with `m` attempts remaining; `env k` is what
`get_all_products` returns on attempt `k`. -/
def clickProductAux (env : Nat → List ProdElem) (pname : String) :
    Nat → Nat → Bool × List ClickEv
  | _, 0 => (false, [])
  | k, m + 1 =>
    let a := clickAttempt pname (env k)
    if a.1 then (true, .locate :: a.2)
    else
      let r := clickProductAux env pname (k + 1) m
      (r.1, .locate :: (a.2 ++ r.2))

/-- Model of `click_product_by_name`, with its action trace: attempts are
numbered from 1, at most `retry_count` of them. -/
def click_product_by_name (env : Nat → List ProdElem) (pname : String)
    (retry_count : Nat) : Bool × List ClickEv :=
  clickProductAux env pname 1 retry_count

/-- Number of `get_all_products` calls (element-location rounds) in a trace. -/
def locateCount : List ClickEv → Nat
  | [] => 0
  | .locate :: tr => locateCount tr + 1
  | _ :: tr => locateCount tr

/-- Number of click-strategy attempts (direct or JavaScript) in a trace. -/
def clickCount : List ClickEv → Nat
  | [] => 0
  | .direct _ _ :: tr => clickCount tr + 1
  | .js _ _ :: tr => clickCount tr + 1
  | _ :: tr => clickCount tr

/-- Number of `time.sleep` events in a trace. -/
def sleepCount : List ClickEv → Nat
  | [] => 0
  | .sleep _ :: tr => sleepCount tr + 1
  | _ :: tr => sleepCount tr

/-- Number of products of one location round carrying the searched name. -/
def matchCount (ps : List ProdElem) (pname : String) : Nat :=
  ps.countP (fun p => p.name = pname)

/-- Total number of matching products over attempts `k, ..., k + m - 1`. -/
def matchSum (env : Nat → List ProdElem) (pname : String) : Nat → Nat → Nat
  | _, 0 => 0
  | k, m + 1 => matchCount (env k) pname + matchSum env pname (k + 1) m

/-!
Model of `take_screenshot` (functions.py lines 323-368).

The whole body sits in a `try/except Exception` returning `None`; inside it
the screenshots directory is created when absent, the test name is cleaned,
a timestamped filename is built, `driver.save_screenshot` is called, and the
result is the filename if `os.path.exists` confirms the file (after a
`getsize` call for logging), else `None`.
-/

/-- Behaviour of the filesystem and driver during one `take_screenshot`
call.  Each `Bool` flag tells whether the corresponding fallible operation
raises; `timestamp` is what `time.strftime` returns. -/
structure ScreenshotEnv where
  dirExists : Bool        -- os.path.exists(screenshot_dir)
  makedirsRaises : Bool   -- os.makedirs(screenshot_dir) raises
  saveRaises : Bool       -- driver.save_screenshot raises (e.g. closed session)
  fileCreated : Bool      -- os.path.exists(filename) after the save
  getsizeRaises : Bool    -- os.path.getsize(filename) raises
  timestamp : String
deriving Repr, DecidableEq

/-- Cleaning of the test name for the filename: the chained replaces of
`"["`, `"]"`, `"/"` and `"\\"` by `"_"` (all four targets are single
characters, none of which is `"_"` itself, so the sequential replaces equal
one character map). -/
def cleanTestName (s : String) : String :=
  ⟨s.data.map (fun c => if c = '[' ∨ c = ']' ∨ c = '/' ∨ c = '\\' then '_' else c)⟩

/-- Filename construction of `take_screenshot`: a nonempty
`screenshot_type` selects the dir/clean_type_timestamp form, an empty one
the dir/clean_timestamp form, with the `.png` extension. -/
def screenshotFilename (clean stype ts : String) : String :=
  if stype = "" then screenshot_dir ++ "/" ++ clean ++ "_" ++ ts ++ ".png"
  else screenshot_dir ++ "/" ++ clean ++ "_" ++ stype ++ "_" ++ ts ++ ".png"

/-- Body of the `try` block of `take_screenshot`, as a fallible
computation: `Except.error` models an exception reaching the outer handler.
Returns the optional path and whether `os.makedirs` was invoked. -/
def takeScreenshotBody (env : ScreenshotEnv) (test_name screenshot_type : String) :
    Except Unit (Option String × Bool) :=
  let madeDir := !env.dirExists
  if madeDir && env.makedirsRaises then .error ()
  else
    let clean := cleanTestName test_name
    let filename := screenshotFilename clean screenshot_type env.timestamp
    if env.saveRaises then .error ()
    else if env.fileCreated then
      if env.getsizeRaises then .error ()
      else .ok (some filename, madeDir)
    else .ok (none, madeDir)

/-- Model of `take_screenshot`: the body with the outer `except Exception`
handler, which swallows every exception and returns `None`. -/
def take_screenshot (env : ScreenshotEnv) (test_name screenshot_type : String) :
    Option String :=
  match takeScreenshotBody env test_name screenshot_type with
  | .ok (r, _) => r
  | .error _ => none

/-- Predicate: every fallible step of `take_screenshot` succeeds and the
file is confirmed on disk. -/
def screenshotSucceeds (env : ScreenshotEnv) : Prop :=
  (env.dirExists = true ∨ env.makedirsRaises = false) ∧ env.saveRaises = false ∧
    env.fileCreated = true ∧ env.getsizeRaises = false

instance (env : ScreenshotEnv) : Decidable (screenshotSucceeds env) := by
  unfold screenshotSucceeds; infer_instance

/-!
Concrete driver behaviours used as counterexamples and witnesses.
-/

/-- Driver behaviour where the error element is found but goes stale before
its text is read. -/
def staleTextEnv : GetErrorEnv := ⟨.ok (), .error .staleElement⟩

/-- Driver behaviour where the close button is found but clicking it is
intercepted by an overlay. -/
def interceptedClickEnv : CloseErrorEnv := ⟨.ok (), .error .clickIntercepted⟩

/-- Fully successful screenshot environment with a fixed timestamp. -/
def ssEnvOk : ScreenshotEnv :=
  ⟨true, false, false, true, false, "20251012_120000"⟩

/-- Round listing two products with the same searched name, both failing
every click strategy. -/
def dupNameEnv : Nat → List ProdElem := fun _ =>
  [⟨"Sauce Labs Backpack", false, false⟩, ⟨"Sauce Labs Backpack", false, false⟩]

/-- Round listing one matching product failing both click strategies. -/
def bothFailEnv : Nat → List ProdElem := fun _ =>
  [⟨"Sauce Labs Backpack", false, false⟩]

/-- Behaviour in which the matching product only becomes clickable on the
second attempt. -/
def secondTrySuccessEnv : Nat → List ProdElem := fun k =>
  if k = 2 then [⟨"Sauce Labs Backpack", true, true⟩]
  else [⟨"Sauce Labs Backpack", false, false⟩]

/-- Round listing only a product with a different name. -/
def noMatchEnv : Nat → List ProdElem := fun _ =>
  [⟨"Sauce Labs Onesie", true, true⟩]

/-- Raw item parsing into the backpack record. -/
def rawOkA : RawItem := ⟨.ok ⟨"Sauce Labs Backpack", "$29.99", 1, 2, 3⟩⟩

/-- Raw item whose sub-element lookups raise. -/
def rawBad : RawItem := ⟨.error .staleElement⟩

/-- Raw item parsing into the bike light record. -/
def rawOkB : RawItem := ⟨.ok ⟨"Sauce Labs Bike Light", "$9.99", 4, 5, 6⟩⟩

/-- Behaviour where the wait for the product list times out. -/
def productsEnvErr : ProductsEnv := ⟨.error .timeout⟩

/-- Behaviour listing one unparseable item between two parseable ones. -/
def productsEnvMixed : ProductsEnv := ⟨.ok [rawOkA, rawBad, rawOkB]⟩

/-!
Theorems for the claims.
-/

/-- C2 counterexample: a stale-element exception raised while reading the
error text propagates uncaught out of `get_error_message` (only
`TimeoutException` is caught there), and a click-intercepted exception
propagates uncaught out of `close_error_message` (only
`NoSuchElementException` is caught there).  This refutes the claim that
every driver exception is converted to a timeout outcome, a
diagnostic-capture outcome or a boolean by these operations. -/
theorem error_helpers_propagate_exc :
    get_error_message staleTextEnv = .error .staleElement ∧
    close_error_message interceptedClickEnv = .error .clickIntercepted :=
  ⟨rfl, rfl⟩

/-- C2 amended: `get_error_message` and `close_error_message` convert
exactly their declared exception classes — a `TimeoutException` never
escapes `get_error_message` (it is converted to `none`), and a
`NoSuchElementException` never escapes `close_error_message` (it is
converted to `false`); every other driver exception propagates unchanged. -/
theorem error_helpers_catch_declared (ge : GetErrorEnv) (ce : CloseErrorEnv) :
    (∀ e, get_error_message ge = .error e → e ≠ .timeout) ∧
    (∀ e, close_error_message ce = .error e → e ≠ .noSuchElement) ∧
    (ge.waitResult = .error .timeout → get_error_message ge = .ok none) ∧
    (ce.findResult = .error .noSuchElement → close_error_message ce = .ok false) := by
  obtain ⟨w, tx⟩ := ge
  obtain ⟨f, c⟩ := ce
  refine ⟨?_, ?_, ?_, ?_⟩
  · intro e he
    rcases w with we | u
    · rcases we <;> simp_all [get_error_message] <;> (subst he; decide)
    · rcases tx with te | t
      · rcases te <;> simp_all [get_error_message] <;> (subst he; decide)
      · simp [get_error_message] at he
  · intro e he
    rcases f with fe | u
    · rcases fe <;> simp_all [close_error_message] <;> (subst he; decide)
    · rcases c with ce | v
      · rcases ce <;> simp_all [close_error_message] <;> (subst he; decide)
      · simp [close_error_message] at he
  · intro hw
    simp only at hw
    subst hw
    rfl
  · intro hf
    simp only at hf
    subst hf
    rfl

/-- C2 witness: instantiates the amended theorem at concrete behaviours
exercising each of its hypotheses. -/
theorem error_helpers_catch_declared_witness :
    (DriverExc.staleElement ≠ DriverExc.timeout) ∧
    (DriverExc.clickIntercepted ≠ DriverExc.noSuchElement) ∧
    get_error_message ⟨.error .timeout, .ok "x"⟩ = .ok none ∧
    close_error_message ⟨.error .noSuchElement, .ok ()⟩ = .ok false :=
  ⟨(error_helpers_catch_declared staleTextEnv interceptedClickEnv).1 _ rfl,
   (error_helpers_catch_declared staleTextEnv interceptedClickEnv).2.1 _ rfl,
   (error_helpers_catch_declared ⟨.error .timeout, .ok "x"⟩ interceptedClickEnv).2.2.1 rfl,
   (error_helpers_catch_declared staleTextEnv ⟨.error .noSuchElement, .ok ()⟩).2.2.2 rfl⟩

/-- C7: `is_logged_in` returns `True` when the URL comes to contain the
inventory-page pattern within the (defaulted) timeout, and converts the
`TimeoutException` of the wait into the boolean `False` instead of letting
it escape. -/
theorem is_logged_in_bool_conversion (wait : Nat → UrlWaitOutcome)
    (timeout : Option Nat) :
    (wait (effectiveTimeout timeout) = .satisfied →
      is_logged_in wait timeout = .ok true) ∧
    (wait (effectiveTimeout timeout) = .timedOut →
      is_logged_in wait timeout = .ok false) := by
  constructor <;> intro h <;> simp [is_logged_in, h]

/-- C7 witness: a wait that succeeds yields `True`; one that times out
yields `False`, at concrete timeouts. -/
theorem is_logged_in_bool_conversion_witness :
    is_logged_in (fun _ => .satisfied) none = .ok true ∧
    is_logged_in (fun _ => .timedOut) (some 3) = .ok false :=
  ⟨(is_logged_in_bool_conversion (fun _ => .satisfied) none).1 rfl,
   (is_logged_in_bool_conversion (fun _ => .timedOut) (some 3)).2 rfl⟩

/-- C1: `take_screenshot` never raises — for every driver and filesystem
behaviour (directory check, directory creation, the save on a possibly
closed session, the existence check, the size read) it returns the derived
path exactly when every step succeeds and the file is confirmed on disk,
and the sentinel `none` on any failure; the outer handler swallows every
exception of the body. -/
theorem take_screenshot_never_raises (env : ScreenshotEnv)
    (test_name screenshot_type : String) :
    take_screenshot env test_name screenshot_type =
      if screenshotSucceeds env then
        some (screenshotFilename (cleanTestName test_name) screenshot_type
          env.timestamp)
      else none := by
  obtain ⟨de, mr, sr, fc, gr, ts⟩ := env
  cases de <;> cases mr <;> cases sr <;> cases fc <;> cases gr <;>
    simp [take_screenshot, takeScreenshotBody, screenshotSucceeds]

/-!
Helper lemmas about the instrumented `click_product_by_name` run.
-/

/-- Location rounds across a concatenation of traces add up. -/
theorem locateCount_append (t1 t2 : List ClickEv) :
    locateCount (t1 ++ t2) = locateCount t1 + locateCount t2 := by
  induction t1 with
  | nil => simp [locateCount]
  | cons e tr ih => cases e <;> simp [locateCount, ih] <;> omega

/-- Click strategies across a concatenation of traces add up. -/
theorem clickCount_append (t1 t2 : List ClickEv) :
    clickCount (t1 ++ t2) = clickCount t1 + clickCount t2 := by
  induction t1 with
  | nil => simp [clickCount]
  | cons e tr ih => cases e <;> simp [clickCount, ih] <;> omega

/-- Sleep events across a concatenation of traces add up. -/
theorem sleepCount_append (t1 t2 : List ClickEv) :
    sleepCount (t1 ++ t2) = sleepCount t1 + sleepCount t2 := by
  induction t1 with
  | nil => simp [sleepCount]
  | cons e tr ih => cases e <;> simp [sleepCount, ih] <;> omega

/-- The inner loop of one attempt performs no element-location round. -/
theorem clickAttempt_locateCount (pname : String) (ps : List ProdElem) :
    locateCount (clickAttempt pname ps).2 = 0 := by
  induction ps with
  | nil => rfl
  | cons p rest ih =>
    by_cases h : p.name = pname
    · by_cases hc : p.clickOk
      · simp [clickAttempt, h, hc, locateCount]
      · by_cases hj : p.jsClickOk
        · simp [clickAttempt, h, hc, hj, locateCount]
        · simpa [clickAttempt, h, hc, hj, locateCount] using ih
    · simpa [clickAttempt, h] using ih

/-- Unfolding of the per-round match count over a cons cell. -/
theorem matchCount_cons (p : ProdElem) (ps : List ProdElem) (pname : String) :
    matchCount (p :: ps) pname =
      matchCount ps pname + (if p.name = pname then 1 else 0) := by
  simp [matchCount, List.countP_cons]

/-- The inner loop of one attempt tries at most two click strategies per
product carrying the searched name. -/
theorem clickAttempt_clickCount_le (pname : String) (ps : List ProdElem) :
    clickCount (clickAttempt pname ps).2 ≤ 2 * matchCount ps pname := by
  induction ps with
  | nil => simp [clickAttempt, clickCount, matchCount]
  | cons p rest ih =>
    rw [matchCount_cons]
    by_cases h : p.name = pname
    · rw [if_pos h]
      by_cases hc : p.clickOk
      · have ht : (clickAttempt pname (p :: rest)).2 =
            [.direct p.name true, .sleep medium_sleep_ms] := by
          simp [clickAttempt, h, hc]
        rw [ht]
        have hv : clickCount
            [ClickEv.direct p.name true, ClickEv.sleep medium_sleep_ms] = 1 := rfl
        omega
      · by_cases hj : p.jsClickOk
        · have ht : (clickAttempt pname (p :: rest)).2 =
              [.direct p.name false, .js p.name true, .sleep medium_sleep_ms] := by
            simp [clickAttempt, h, hc, hj]
          rw [ht]
          have hv : clickCount [ClickEv.direct p.name false,
              ClickEv.js p.name true, ClickEv.sleep medium_sleep_ms] = 2 := rfl
          omega
        · have ht : (clickAttempt pname (p :: rest)).2 =
              .direct p.name false :: .js p.name false ::
                (clickAttempt pname rest).2 := by
            simp [clickAttempt, h, hc, hj]
          rw [ht]
          simp only [clickCount]
          omega
    · rw [if_neg h]
      have ht : clickAttempt pname (p :: rest) = clickAttempt pname rest := by
        simp [clickAttempt, h]
      rw [ht]
      omega

/-- The inner loop of one attempt sleeps exactly once when it succeeds and
never when it fails. -/
theorem clickAttempt_sleepCount (pname : String) (ps : List ProdElem) :
    sleepCount (clickAttempt pname ps).2 =
      if (clickAttempt pname ps).1 then 1 else 0 := by
  induction ps with
  | nil => rfl
  | cons p rest ih =>
    by_cases h : p.name = pname
    · by_cases hc : p.clickOk
      · simp [clickAttempt, h, hc, sleepCount]
      · by_cases hj : p.jsClickOk
        · simp [clickAttempt, h, hc, hj, sleepCount]
        · simpa [clickAttempt, h, hc, hj, sleepCount] using ih
    · simpa [clickAttempt, h] using ih

/-- Each executed attempt contributes one location round, so a run performs
at most as many location rounds as it has attempts. -/
theorem clickProductAux_locateCount_le (env : Nat → List ProdElem)
    (pname : String) :
    ∀ m k, locateCount (clickProductAux env pname k m).2 ≤ m := by
  intro m
  induction m with
  | zero => intro k; simp [clickProductAux, locateCount]
  | succ m ih =>
    intro k
    have h1 := clickAttempt_locateCount pname (env k)
    by_cases h : (clickAttempt pname (env k)).1
    · simp [clickProductAux, h, locateCount, h1]
    · simp [clickProductAux, h, locateCount, locateCount_append, h1]
      have h2 := ih (k + 1)
      omega

/-- A run tries at most two click strategies per matching product of each
executed location round. -/
theorem clickProductAux_clickCount_le (env : Nat → List ProdElem)
    (pname : String) :
    ∀ m k, clickCount (clickProductAux env pname k m).2 ≤
      2 * matchSum env pname k m := by
  intro m
  induction m with
  | zero => intro k; simp [clickProductAux, clickCount]
  | succ m ih =>
    intro k
    have h1 := clickAttempt_clickCount_le pname (env k)
    by_cases h : (clickAttempt pname (env k)).1
    · simp [clickProductAux, h, clickCount, matchSum]
      omega
    · simp [clickProductAux, h, clickCount, clickCount_append, matchSum]
      have h2 := ih (k + 1)
      omega

/-- A run sleeps exactly once when it returns `True` and never otherwise. -/
theorem clickProductAux_sleepCount (env : Nat → List ProdElem)
    (pname : String) :
    ∀ m k, sleepCount (clickProductAux env pname k m).2 =
      if (clickProductAux env pname k m).1 then 1 else 0 := by
  intro m
  induction m with
  | zero => intro k; rfl
  | succ m ih =>
    intro k
    have ha := clickAttempt_sleepCount pname (env k)
    by_cases h : (clickAttempt pname (env k)).1
    · rw [if_pos h] at ha
      simp [clickProductAux, h, sleepCount, ha]
    · rw [if_neg h] at ha
      have hr := ih (k + 1)
      simp [clickProductAux, h, sleepCount, sleepCount_append, ha, hr]

/-- If the first `i` attempts starting at `k` fail and attempt `k + i`
succeeds, the run stops right there: it returns `True` after exactly
`i + 1` location rounds. -/
theorem clickProductAux_first_success (env : Nat → List ProdElem)
    (pname : String) :
    ∀ i m k, i < m →
      (∀ j, j < i → (clickAttempt pname (env (k + j))).1 = false) →
      (clickAttempt pname (env (k + i))).1 = true →
      (clickProductAux env pname k m).1 = true ∧
      locateCount (clickProductAux env pname k m).2 = i + 1 := by
  intro i
  induction i with
  | zero =>
    intro m k him hfail hsucc
    obtain ⟨m, rfl⟩ : ∃ n, m = n + 1 := ⟨m - 1, by omega⟩
    rw [Nat.add_zero] at hsucc
    have h0 := clickAttempt_locateCount pname (env k)
    constructor
    · simp [clickProductAux, hsucc]
    · simp [clickProductAux, hsucc, locateCount, h0]
  | succ i ih =>
    intro m k him hfail hsucc
    obtain ⟨m, rfl⟩ : ∃ n, m = n + 1 := ⟨m - 1, by omega⟩
    have h0 : (clickAttempt pname (env k)).1 = false := by
      simpa using hfail 0 (by omega)
    have hrec := ih m (k + 1) (by omega)
      (fun j hj => by
        have e : k + 1 + j = k + (j + 1) := by omega
        rw [e]
        exact hfail (j + 1) (by omega))
      (by
        have e : k + 1 + i = k + (i + 1) := by omega
        rw [e]
        exact hsucc)
    have hl := clickAttempt_locateCount pname (env k)
    constructor
    · simp [clickProductAux, h0, hrec.1]
    · have h2 := hrec.2
      simp [clickProductAux, h0, locateCount, locateCount_append, hl, h2]

/-- If every attempt in the executed range fails, the run returns `False`. -/
theorem clickProductAux_all_fail (env : Nat → List ProdElem)
    (pname : String) :
    ∀ m k, (∀ j, j < m → (clickAttempt pname (env (k + j))).1 = false) →
      (clickProductAux env pname k m).1 = false := by
  intro m
  induction m with
  | zero => intro k h; rfl
  | succ m ih =>
    intro k h
    have h0 : (clickAttempt pname (env k)).1 = false := by
      simpa using h 0 (by omega)
    simp [clickProductAux, h0]
    exact ih (k + 1) (fun j hj => by
      have e : k + 1 + j = k + (j + 1) := by omega
      rw [e]
      exact h (j + 1) (by omega))

/-- An attempt whose product list carries no matching name performs no
click at all and fails. -/
theorem clickAttempt_no_match (pname : String) (ps : List ProdElem)
    (h : ∀ p ∈ ps, p.name ≠ pname) :
    clickAttempt pname ps = (false, []) := by
  induction ps with
  | nil => rfl
  | cons p rest ih =>
    have hp : p.name ≠ pname := h p (by simp)
    simp only [clickAttempt, hp, if_false, ite_false]
    exact ih (fun q hq => h q (by simp [hq]))

/-- A run over rounds that never list the searched name executes all its
attempts, each reduced to the bare location round. -/
theorem clickProductAux_no_match (env : Nat → List ProdElem)
    (pname : String) :
    ∀ m k, (∀ j, j < m → ∀ p ∈ env (k + j), p.name ≠ pname) →
      clickProductAux env pname k m = (false, List.replicate m .locate) := by
  intro m
  induction m with
  | zero => intro k h; rfl
  | succ m ih =>
    intro k h
    have h0 : clickAttempt pname (env k) = (false, []) :=
      clickAttempt_no_match pname (env k)
        (fun p hp => by simpa using h 0 (by omega) p (by simpa using hp))
    have hr := ih (k + 1) (fun j hj p hp => by
      have e : k + (j + 1) = k + 1 + j := by omega
      exact h (j + 1) (by omega) p (by rwa [e])
      )
    simp [clickProductAux, h0, hr, List.replicate_succ]

/-- The count of location rounds in a trace of bare location rounds. -/
theorem locateCount_replicate (m : Nat) :
    locateCount (List.replicate m .locate) = m := by
  induction m with
  | zero => rfl
  | succ m ih => simp [List.replicate_succ, locateCount, ih]

/-- A trace of bare location rounds holds no click event. -/
theorem clickCount_replicate (m : Nat) :
    clickCount (List.replicate m .locate) = 0 := by
  induction m with
  | zero => rfl
  | succ m ih => simp [List.replicate_succ, clickCount, ih]

/-- C3 counterexample: when one location round lists two products carrying
the searched name and the first fails both strategies, the loop moves on to
the second matching product, so a single round performs four click
strategies — more than the two the claim allows per round. -/
theorem click_two_strategy_bound_fails :
    locateCount (click_product_by_name dupNameEnv "Sauce Labs Backpack" 1).2 = 1 ∧
    clickCount (click_product_by_name dupNameEnv "Sauce Labs Backpack" 1).2 = 4 := by
  exact ⟨by rfl, by rfl⟩

/-- C3 amended: for every `retry_count = N`, the run performs at most `N`
element-location rounds (one `get_all_products` call each), and tries at
most two click strategies — direct then JavaScript — per product carrying
the searched name in each round (hence at most two per round whenever at
most one listed product matches). -/
theorem click_product_attempt_bounds (env : Nat → List ProdElem)
    (pname : String) (n : Nat) :
    locateCount (click_product_by_name env pname n).2 ≤ n ∧
    clickCount (click_product_by_name env pname n).2 ≤
      2 * matchSum env pname 1 n :=
  ⟨clickProductAux_locateCount_le env pname n 1,
   clickProductAux_clickCount_le env pname n 1⟩

/-- C4 counterexample: a run of two attempts, each failing the direct and
the JavaScript click, contains no sleep event at all — the next attempt
begins immediately, not after the short fixed delay the claim requires. -/
theorem click_no_delay_between_attempts :
    locateCount (click_product_by_name bothFailEnv "Sauce Labs Backpack" 2).2 = 2 ∧
    clickCount (click_product_by_name bothFailEnv "Sauce Labs Backpack" 2).2 = 4 ∧
    sleepCount (click_product_by_name bothFailEnv "Sauce Labs Backpack" 2).2 = 0 := by
  exact ⟨by rfl, by rfl, by rfl⟩

/-- C4 amended: the run sleeps exactly once — the `medium_sleep` following
a successful click — when it returns `True`, and never sleeps otherwise; in
particular no delay separates a fully failed attempt from the next one. -/
theorem click_sleep_only_after_success (env : Nat → List ProdElem)
    (pname : String) (n : Nat) :
    sleepCount (click_product_by_name env pname n).2 =
      if (click_product_by_name env pname n).1 then 1 else 0 :=
  clickProductAux_sleepCount env pname n 1

/-- C5: first success wins — when attempts `1, ..., k - 1` fail and some
click strategy of attempt `k ≤ n` succeeds, the run returns `True` having
performed exactly `k` location rounds, none for any later attempt index. -/
theorem click_first_success_wins (env : Nat → List ProdElem)
    (pname : String) (n k : Nat) (hk1 : 1 ≤ k) (hkn : k ≤ n)
    (hfail : ∀ j, 1 ≤ j → j < k → (clickAttempt pname (env j)).1 = false)
    (hsucc : (clickAttempt pname (env k)).1 = true) :
    (click_product_by_name env pname n).1 = true ∧
    locateCount (click_product_by_name env pname n).2 = k := by
  have h := clickProductAux_first_success env pname (k - 1) n 1 (by omega)
    (fun j hj => hfail (1 + j) (by omega) (by omega))
    (by
      have e : 1 + (k - 1) = k := by omega
      rw [e]
      exact hsucc)
  unfold click_product_by_name
  refine ⟨h.1, ?_⟩
  rw [h.2]
  omega

/-- C5 witness: the matching product is clickable only on attempt 2 of 3;
the run succeeds after exactly two location rounds. -/
theorem click_first_success_wins_witness :
    (click_product_by_name secondTrySuccessEnv "Sauce Labs Backpack" 3).1 = true ∧
    locateCount (click_product_by_name secondTrySuccessEnv "Sauce Labs Backpack" 3).2 = 2 :=
  click_first_success_wins secondTrySuccessEnv "Sauce Labs Backpack" 3 2
    (by decide) (by decide)
    (fun j h1 h2 => by
      have hj : j = 1 := by omega
      subst hj
      rfl)
    (by rfl)

/-- C6: `click_product_by_name` is a total boolean-valued function of the
driver behaviour (every driver exception during locating or clicking is
modelled and absorbed), and when every one of the `retry_count` attempts
fails it returns `False`. -/
theorem click_exhausts_returns_false (env : Nat → List ProdElem)
    (pname : String) (n : Nat)
    (h : ∀ k, 1 ≤ k → k ≤ n → (clickAttempt pname (env k)).1 = false) :
    (click_product_by_name env pname n).1 = false :=
  clickProductAux_all_fail env pname n 1
    (fun j hj => h (1 + j) (by omega) (by omega))

/-- C6 witness: two attempts on a product failing both strategies yield
`False`. -/
theorem click_exhausts_returns_false_witness :
    (click_product_by_name bothFailEnv "Sauce Labs Backpack" 2).1 = false :=
  click_exhausts_returns_false bothFailEnv "Sauce Labs Backpack" 2
    (fun k _ _ => by rfl)

/-- C10: when no round lists a product with the searched name, the run
performs no click action of either strategy, executes exactly `retry_count`
location rounds, and returns `False`. -/
theorem click_no_match_no_click (env : Nat → List ProdElem)
    (pname : String) (n : Nat)
    (h : ∀ k, 1 ≤ k → k ≤ n → ∀ p ∈ env k, p.name ≠ pname) :
    (click_product_by_name env pname n).1 = false ∧
    locateCount (click_product_by_name env pname n).2 = n ∧
    clickCount (click_product_by_name env pname n).2 = 0 := by
  have hr := clickProductAux_no_match env pname n 1
    (fun j hj p hp => h (1 + j) (by omega) (by omega) p hp)
  unfold click_product_by_name
  rw [hr]
  exact ⟨rfl, locateCount_replicate n, clickCount_replicate n⟩

/-- C10 witness: two rounds listing only a differently named product yield
`False`, two location rounds and zero clicks. -/
theorem click_no_match_no_click_witness :
    (click_product_by_name noMatchEnv "Sauce Labs Backpack" 2).1 = false ∧
    locateCount (click_product_by_name noMatchEnv "Sauce Labs Backpack" 2).2 = 2 ∧
    clickCount (click_product_by_name noMatchEnv "Sauce Labs Backpack" 2).2 = 0 :=
  click_no_match_no_click noMatchEnv "Sauce Labs Backpack" 2
    (fun k _ _ p hp => by
      have hp2 : p = ⟨"Sauce Labs Onesie", true, true⟩ := by
        simpa [noMatchEnv] using hp
      subst hp2
      decide)

/-!
Helper lemmas for the screenshot filename claims.
-/

/-- In an equality of string concatenations whose right parts have equal
length, both parts agree. -/
theorem string_append_inj (p1 p2 t1 t2 : String)
    (h : p1 ++ t1 = p2 ++ t2) (hlen : t1.length = t2.length) :
    p1 = p2 ∧ t1 = t2 := by
  have hd : p1.data ++ t1.data = p2.data ++ t2.data := congrArg String.data h
  have hl : t1.data.length = t2.data.length := hlen
  obtain ⟨h1, h2⟩ := List.append_inj' hd hl
  exact ⟨String.ext h1, String.ext h2⟩

/-- Both filename forms append the timestamp and the extension last. -/
theorem screenshotFilename_shape (clean stype ts : String) :
    ∃ p, screenshotFilename clean stype ts = p ++ ts ++ ".png" := by
  unfold screenshotFilename
  split
  · exact ⟨screenshot_dir ++ "/" ++ clean ++ "_", rfl⟩
  · exact ⟨screenshot_dir ++ "/" ++ clean ++ "_" ++ stype ++ "_", rfl⟩

/-- Derived screenshot paths differ whenever the timestamps differ (all
timestamps of the fixed `strftime` format share one length). -/
theorem screenshotFilename_ne_of_ts_ne (c1 c2 s1 s2 ts1 ts2 : String)
    (hlen : ts1.length = ts2.length) (hne : ts1 ≠ ts2) :
    screenshotFilename c1 s1 ts1 ≠ screenshotFilename c2 s2 ts2 := by
  obtain ⟨p1, hp1⟩ := screenshotFilename_shape c1 s1 ts1
  obtain ⟨p2, hp2⟩ := screenshotFilename_shape c2 s2 ts2
  intro he
  rw [hp1, hp2] at he
  have h1 := string_append_inj (p1 ++ ts1) (p2 ++ ts2) ".png" ".png" he rfl
  have h2 := string_append_inj p1 p2 ts1 ts2 h1.1 hlen
  exact hne h2.2

/-- C8 counterexample: two distinct capture calls — different `test_name`
inputs, within the same timestamp second — derive the same path, because
the cleaning maps both names to one string and the timestamp has only
one-second granularity.  This refutes "for every two distinct capture calls
the derived paths differ". -/
theorem take_screenshot_path_collision :
    take_screenshot ssEnvOk "a[b" "fail" = take_screenshot ssEnvOk "a_b" "fail" ∧
    ("a[b" : String) ≠ "a_b" ∧
    take_screenshot ssEnvOk "a[b" "fail" =
      some "screenshots/a_b_fail_20251012_120000.png" :=
  ⟨rfl, by decide, rfl⟩

/-- C8 amended: `take_screenshot` invokes `os.makedirs` exactly when the
destination directory is absent (ensuring it exists on every non-raising
path), and the derived paths of two capture calls differ whenever their
timestamps differ; calls sharing cleaned name, tag and timestamp second may
collide. -/
theorem take_screenshot_dir_and_fresh_paths :
    (∀ env t s, (takeScreenshotBody env t s).map Prod.snd =
      (takeScreenshotBody env t s).map (fun _ => !env.dirExists)) ∧
    (∀ c1 c2 s1 s2 ts1 ts2 : String, ts1.length = ts2.length → ts1 ≠ ts2 →
      screenshotFilename c1 s1 ts1 ≠ screenshotFilename c2 s2 ts2) := by
  constructor
  · intro env t s
    obtain ⟨de, mr, sr, fc, gr, ts⟩ := env
    cases de <;> cases mr <;> cases sr <;> cases fc <;> cases gr <;>
      simp [takeScreenshotBody, Except.map]
  · intro c1 c2 s1 s2 ts1 ts2 hlen hne
    exact screenshotFilename_ne_of_ts_ne c1 c2 s1 s2 ts1 ts2 hlen hne

/-- C8 witness: consecutive timestamp seconds give distinct paths for the
same test name and tag. -/
theorem take_screenshot_dir_and_fresh_paths_witness :
    screenshotFilename (cleanTestName "test_login") "fail" "20251012_120000" ≠
      screenshotFilename (cleanTestName "test_login") "fail" "20251012_120001" :=
  take_screenshot_dir_and_fresh_paths.2 (cleanTestName "test_login")
    (cleanTestName "test_login") "fail" "fail" "20251012_120000" "20251012_120001"
    (by decide) (by decide)

/-!
Helper lemma for the `get_all_products` claim.
-/

/-- Each record of `parseItems` comes from the parseable raw item at its
1-based enumeration position; skipped items leave no record but still
advance the index; the number of records equals the number of parseable
items. -/
theorem parseItems_spec (l : List RawItem) : ∀ s,
    (parseItems l s).length = l.countP parseOk ∧
    ∀ p ∈ parseItems l s, s ≤ p.index ∧ p.index < s + l.length ∧
      ∃ it, l.get? (p.index - s) = some it ∧ it.parse = .ok p.data := by
  induction l with
  | nil => intro s; simp [parseItems]
  | cons it rest ih =>
    intro s
    cases hp : it.parse with
    | ok d =>
      constructor
      · simp [parseItems, hp, parseOk, List.countP_cons, (ih (s + 1)).1]
      · intro p hmem
        simp only [parseItems, hp, List.mem_cons] at hmem
        rcases hmem with h | h
        · subst h
          refine ⟨by simp, by simp, ⟨it, ?_, by simpa [hp]⟩⟩
          simp [Nat.sub_self]
        · obtain ⟨h1, h2, it', hg, hpar⟩ := (ih (s + 1)).2 p h
          refine ⟨by omega, ?_, ⟨it', ?_, hpar⟩⟩
          · simp only [List.length_cons]
            omega
          · have e : p.index - s = (p.index - (s + 1)) + 1 := by omega
            rw [e, List.get?_cons_succ]
            exact hg
    | error e =>
      constructor
      · simp [parseItems, hp, parseOk, List.countP_cons, (ih (s + 1)).1]
      · intro p hmem
        simp only [parseItems, hp] at hmem
        obtain ⟨h1, h2, it', hg, hpar⟩ := (ih (s + 1)).2 p hmem
        refine ⟨by omega, ?_, ⟨it', ?_, hpar⟩⟩
        · simp only [List.length_cons]
          omega
        · have e2 : p.index - s = (p.index - (s + 1)) + 1 := by omega
          rw [e2, List.get?_cons_succ]
          exact hg

/-- C9: `get_all_products` never raises for any driver behaviour — when the
wait or the element query fails it returns the empty list; raw items whose
parsing raises are skipped without aborting the call; and every returned
record carries the parsed `name`, `price`, `image`, `add_button` and
`name_link` fields of the raw item standing at its 1-based `index`. -/
theorem get_all_products_safe (env : ProductsEnv) :
    (∀ e, env.items = .error e → get_all_products env = []) ∧
    (∀ items, env.items = .ok items →
      (get_all_products env).length = items.countP parseOk ∧
      ∀ p ∈ get_all_products env,
        1 ≤ p.index ∧ p.index ≤ items.length ∧
        ∃ it, items.get? (p.index - 1) = some it ∧ it.parse = .ok p.data) := by
  obtain ⟨its⟩ := env
  constructor
  · intro e he
    simp only at he
    subst he
    rfl
  · intro items hi
    simp only at hi
    subst hi
    have h := parseItems_spec items 1
    constructor
    · simpa [get_all_products] using h.1
    · intro p hp
      obtain ⟨h1, h2, it, hg, hpar⟩ := h.2 p (by simpa [get_all_products] using hp)
      exact ⟨h1, by omega, it, hg, hpar⟩

/-- C9 witness: a failed wait yields the empty list; of three raw items
with an unparseable one in the middle, exactly the two parseable ones
become records. -/
theorem get_all_products_safe_witness :
    get_all_products productsEnvErr = [] ∧
    (get_all_products productsEnvMixed).length = 2 :=
  ⟨(get_all_products_safe productsEnvErr).1 .timeout rfl,
   ((get_all_products_safe productsEnvMixed).2 [rawOkA, rawBad, rawOkB] rfl).1.trans rfl⟩

end SauceDemo
